import Mathlib

/-!
# InsureGuard AI — verification of the dashboard frontend against its specification

Shallow embedding of the InsureGuard AI dashboard code (frontend JS modules:
shared UI components, the Admin/Agent module in both of its variants, the
Manager module, and the Dashboard module) together with spec-modelled
definitions for the backend risk-scoring pipeline where only the spec
describes it.  Numbers handled by JavaScript are modelled as rationals `ℚ`
(every finite IEEE double is a rational; the claims under study are order
comparisons and exact arithmetic, so `ℚ` is faithful); `null`/`undefined`
inputs are modelled with `Option`.
-/

namespace InsureGuard

/-! ## Shared UI components (src/unnamed/part_000) -/

/-- Embedding of the risk-class ternary in `renderRiskBar`
(`score < 30 ? 'low' : score < 70 ? 'medium' : 'high'`).  The surrounding
HTML does not affect which class is chosen. -/
def riskBarClass (score : ℚ) : String :=
  if score < 30 then "low" else if score < 70 then "medium" else "high"

/-- Embedding of `renderRiskBar`'s guard: `null`/`undefined` scores render
the empty string, otherwise the bar is produced with `riskBarClass`. -/
def renderRiskBarClass (score : Option ℚ) : Option String :=
  match score with
  | none => none
  | some s => some (riskBarClass s)

/-- Indian-locale integer rupee formatting used by `formatCurrency`
(`Intl.NumberFormat('en-IN', currency INR, maximumFractionDigits 0)`):
the amount rounded to an integer, rendered with the rupee sign.
Digit grouping is immaterial to the claims and omitted for amounts below
1000 (all inputs considered here). -/
def intlFormatINR (amount : ℚ) : String :=
  "₹" ++ toString (round amount)

/-- Embedding of the placeholder guard of `formatCurrency`:
`!amount && amount !== 0`.  For a number `a`, `!a` holds exactly when
`a = 0`, and `a !== 0` exactly when `a ≠ 0`; for `null`/`undefined` both
conjuncts hold. -/
def formatCurrencyPlaceholderBranch (amount : Option ℚ) : Bool :=
  match amount with
  | none => true
  | some a => (a == 0) && (a != 0)

/-- Embedding of `formatCurrency`: the placeholder literal when the guard
fires, otherwise the `Intl` formatter output. -/
def formatCurrency (amount : Option ℚ) : String :=
  if formatCurrencyPlaceholderBranch amount then "₹0" else
    intlFormatINR (amount.getD 0)

/-- A sidebar navigation item as in `renderSidebar`'s `navItems` table. -/
structure NavItem where
  id : String
  icon : String
  label : String
deriving DecidableEq

/-- Embedding of `navItems.user` of `renderSidebar` (the policyholder menu). -/
def userNavItems : List NavItem :=
  [ ⟨"dashboard", "📊", "Dashboard"⟩,
    ⟨"new-claim", "📝", "File New Claim"⟩,
    ⟨"my-claims", "📋", "My Claims"⟩ ]

/-- Embedding of `navItems.agent` of `renderSidebar`. -/
def agentNavItems : List NavItem :=
  [ ⟨"dashboard", "📊", "Dashboard"⟩,
    ⟨"claims-list", "📋", "All Claims"⟩,
    ⟨"analytics", "📈", "Analytics"⟩,
    ⟨"alerts", "🔔", "Alerts"⟩ ]

/-- Embedding of `navItems.manager` of `renderSidebar`. -/
def managerNavItems : List NavItem :=
  [ ⟨"dashboard", "📊", "Dashboard"⟩,
    ⟨"claims-list", "📋", "All Claims"⟩,
    ⟨"analytics", "📈", "Analytics"⟩,
    ⟨"ml-insights", "🧠", "ML Insights"⟩,
    ⟨"fraud-network", "🕸️", "Fraud Network"⟩,
    ⟨"fraud-intel", "🕵️", "Fraud Intelligence"⟩,
    ⟨"alerts", "🔔", "Alerts"⟩,
    ⟨"high-risk", "🚨", "High Risk Claims"⟩,
    ⟨"audit-logs", "📜", "Audit Logs"⟩,
    ⟨"settings", "⚙️", "Settings"⟩ ]

/-- The authenticated user record as read by `Auth.getUser()`; `role` is
`Option` because a stored user object may lack the field. -/
structure SiteUser where
  role : Option String
  full_name : String

/-- Embedding of `const role = user?.role || 'user'` — missing user, missing role and
the falsy empty string all fall back to `'user'`. -/
def effectiveRole (user : Option SiteUser) : String :=
  match user with
  | none => "user"
  | some u =>
    match u.role with
    | none => "user"
    | some r => if r = "" then "user" else r

/-- Embedding of `navItems[role] || navItems.user` — the JS object lookup keyed by the
role string, with fallback to the policyholder menu. -/
def navItemsFor (role : String) : List NavItem :=
  if role = "user" then userNavItems
  else if role = "agent" then agentNavItems
  else if role = "manager" then managerNavItems
  else userNavItems

/-- The item list `renderSidebar` renders for a given (possibly missing)
authenticated user. -/
def sidebarItems (user : Option SiteUser) : List NavItem :=
  navItemsFor (effectiveRole user)

/-- The ids of a nav item list (the values fed to `App.navigate`). -/
def navIds (items : List NavItem) : List String :=
  items.map NavItem.id

/-! ## Admin module, threshold settings (src/unnamed/part_002) -/

/-- Backend-stored low/high threshold pair, updated only by an
`updateThresholds` request. -/
structure ThresholdStore where
  low : ℚ
  high : ℚ
deriving DecidableEq

/-- Outcome of one `Admin.saveThresholds()` run: the update request sent to
the backend (if any), the resulting stored thresholds, and the toast text. -/
structure SaveOutcome where
  request : Option (ℚ × ℚ)
  store : ThresholdStore
  toast : String
deriving DecidableEq

/-- Embedding of `Admin.saveThresholds` (part_002 variant): parse low and
high, reject with a warning toast when `low >= high`, otherwise issue
`API.updateThresholds(low, high)`, which the backend applies to the store. -/
def saveThresholds (store : ThresholdStore) (low high : ℚ) : SaveOutcome :=
  if low ≥ high then
    { request := none, store := store,
      toast := "Low threshold must be less than high" }
  else
    { request := some (low, high), store := { low := low, high := high },
      toast := "Thresholds updated!" }

/-! ## Fraud-probability table cells (src/unnamed/part_001 and
src/frontend/js/config.js) -/

/-- Rounding of `q` half-up to one decimal place, as a string with exactly one
digit after the point — the behaviour of `(q).toFixed(1)` on the
nonnegative inputs at issue. -/
def toFixed1 (q : ℚ) : String :=
  let n : ℤ := ⌊q * 10 + 1 / 2⌋
  toString (n / 10) ++ "." ++ toString (n % 10)

/-- Embedding of the fraud-score cell of `Manager.renderHighRiskClaims`:
`c.fraud_probability ? (c.fraud_probability * 100).toFixed(1) + '%' : '—'`.
The condition is JS truthiness of the number: nonzero. -/
def highRiskFraudScoreCell (p : ℚ) : String :=
  if p ≠ 0 then toFixed1 (p * 100) ++ "%" else "—"

/-- Embedding of the identical fraud-score cell of
`Dashboard.renderStaffDashboard`'s recent-claims table. -/
def staffFraudScoreCell (p : ℚ) : String :=
  if p ≠ 0 then toFixed1 (p * 100) ++ "%" else "—"

/-! ## Manager module, fraud intelligence (src/unnamed/part_001) -/

/-- A fraud cluster as delivered in the fraud-intelligence payload.  The
spec's data model gives each cluster a `cluster_id` field; the view reads
only `risk_level`, `size` and `nodes`. -/
structure FraudCluster where
  cluster_id : ℕ
  size : ℕ
  risk_level : String
  nodes : List String
deriving DecidableEq

/-- The title line of one rendered cluster:
`Network Cluster #${i + 1} — ${cluster.size} connected entities`. -/
def clusterTitle (i : ℕ) (c : FraudCluster) : String :=
  "Network Cluster #" ++ toString (i + 1) ++ " — " ++ toString c.size ++
    " connected entities"

/-- Embedding of the cluster entry produced by
`Manager.renderFraudIntelligence` for the cluster at position `i` of the
current run's result list (whitespace of the template elided). -/
def clusterItemHtml (i : ℕ) (c : FraudCluster) : String :=
  "<div class=\"alert-item " ++
    (if c.risk_level = "critical" then "critical" else "high") ++
    "\" style=\"margin-bottom: var(--space-md);\">" ++
  "<span class=\"alert-icon\">" ++
    (if c.risk_level = "critical" then "🚨" else "⚠️") ++ "</span>" ++
  "<div class=\"alert-content\">" ++
  "<div class=\"alert-title\">" ++ clusterTitle i c ++ "</div>" ++
  "<div class=\"alert-message\">Risk Level: <span class=\"badge badge-" ++
    c.risk_level ++ "\">" ++ c.risk_level ++ "</span>" ++
  "<br>Entities: " ++ String.intercalate ", " (c.nodes.take 5) ++
    (if c.nodes.length > 5 then "..." else "") ++
  "</div></div></div>"

/-- Embedding of `networks.fraud_clusters.map((cluster, i) => ...)` — each cluster is
rendered with its position in the current result list. -/
def renderFraudClusters (cs : List FraudCluster) : List String :=
  cs.mapIdx clusterItemHtml

/-! ## Admin module, alerts page (src/unnamed/part_002 and part_003;
the two variants render the alerts page identically) -/

/-- One alert of the alerts payload as read by `Admin.renderAlerts`. -/
structure AlertItem where
  alert_type : String
  severity : String
  message : String
deriving DecidableEq

/-- The `/admin/alerts` payload as read by `Admin.renderAlerts`: the
per-severity counts and the total arrive precomputed beside the list. -/
structure AlertsPayload where
  critical_alerts : ℕ
  high_alerts : ℕ
  medium_alerts : ℕ
  total_alerts : ℕ
  alerts : List AlertItem
deriving DecidableEq

/-- Number of listed alerts carrying a given severity. -/
def severityCount (alerts : List AlertItem) (sev : String) : ℕ :=
  alerts.countP (fun a => a.severity == sev)

/-- The number interpolated into the Critical stat card
(`${data.critical_alerts}`). -/
def shownCriticalCount (d : AlertsPayload) : ℕ := d.critical_alerts

/-- The number interpolated into the High stat card (`${data.high_alerts}`). -/
def shownHighCount (d : AlertsPayload) : ℕ := d.high_alerts

/-- The number interpolated into the Medium stat card
(`${data.medium_alerts}`). -/
def shownMediumCount (d : AlertsPayload) : ℕ := d.medium_alerts

/-- The number interpolated into the `Active Alerts (...)` header
(`${data.total_alerts}`). -/
def shownTotalCount (d : AlertsPayload) : ℕ := d.total_alerts

/-- Embedding of the severity-summary block of `Admin.renderAlerts`
(stats grid plus the Active Alerts header, whitespace elided): it
interpolates the payload's count fields. -/
def alertsSummaryHtml (d : AlertsPayload) : String :=
  "<div class=\"stats-grid\">" ++
  "<div class=\"stat-card red\"><div class=\"stat-card-header\">" ++
  "<div class=\"stat-card-icon\">🚨</div>" ++
  "<span class=\"stat-card-label\">Critical</span></div>" ++
  "<div class=\"stat-card-value\">" ++ toString d.critical_alerts ++
  "</div></div>" ++
  "<div class=\"stat-card amber\"><div class=\"stat-card-header\">" ++
  "<div class=\"stat-card-icon\">⚠️</div>" ++
  "<span class=\"stat-card-label\">High</span></div>" ++
  "<div class=\"stat-card-value\">" ++ toString d.high_alerts ++
  "</div></div>" ++
  "<div class=\"stat-card blue\"><div class=\"stat-card-header\">" ++
  "<div class=\"stat-card-icon\">ℹ️</div>" ++
  "<span class=\"stat-card-label\">Medium</span></div>" ++
  "<div class=\"stat-card-value\">" ++ toString d.medium_alerts ++
  "</div></div></div>" ++
  "<div class=\"glass-card\"><div class=\"card-header\"><h3>⚠️ Active Alerts (" ++
  toString d.total_alerts ++ ")</h3></div>"

/-! ## Admin module, fraud-network view (src/unnamed/part_003) -/

/-- A node of the `/admin/fraud-network` payload. -/
structure NetNode where
  id : String
  group : String
deriving DecidableEq

/-- An edge of the payload; the JS fields are `from` and `to` (Lean
keywords), embedded as `fromNode` and `toNode`. -/
structure NetEdge where
  fromNode : String
  toNode : String
deriving DecidableEq

/-- Embedding of `counts[k] = (counts[k] || 0) + 1` on a JS object modelled as an
association list: increment the entry if present, otherwise create it
at 1. -/
def bumpCount : List (String × ℕ) → String → List (String × ℕ)
  | [], k => [(k, 1)]
  | (k', v) :: t, k =>
    if k' = k then (k', v + 1) :: t else (k', v) :: bumpCount t k

/-- The degree map `Admin.drawNetwork` builds: for each edge it bumps the
entries of `e.to` and `e.from`. -/
def degreeMap (edges : List NetEdge) : List (String × ℕ) :=
  edges.foldl (fun m e => bumpCount (bumpCount m e.toNode) e.fromNode) []

/-- JS object property read `counts[k]`: the stored value when the key is
present, `undefined` (here `none`) otherwise. -/
def lookupCount : List (String × ℕ) → String → Option ℕ
  | [], _ => none
  | (k', v) :: t, k => if k' = k then some v else lookupCount t k

/-- The JS comparison `counts[n.id] > 2`: `undefined > 2` is false, so a
missing entry never satisfies it. -/
def countGtTwo : Option ℕ → Bool
  | none => false
  | some v => 2 < v

/-- Embedding of the node-coloring of `Admin.drawNetwork`: red when the
degree-map comparison fires, else blue for group `policyholder`, green for
any other group. -/
def nodeColor (edges : List NetEdge) (n : NetNode) : String :=
  if countGtTwo (lookupCount (degreeMap edges) n.id) then "#f43f5e"
  else if n.group = "policyholder" then "#3b82f6" else "#10b981"

/-- Total number of edge-endpoint occurrences of an id (a self-loop
contributes twice, matching the two bumps `drawNetwork` performs). -/
def endpointCount : List NetEdge → String → ℕ
  | [], _ => 0
  | e :: t, i =>
    (if e.toNode = i then 1 else 0) + (if e.fromNode = i then 1 else 0) +
      endpointCount t i

/-- Number of edges of the payload incident to an id (a self-loop is one
edge). -/
def incidentEdgeCount (edges : List NetEdge) (i : String) : ℕ :=
  edges.countP (fun e => e.toNode == i || e.fromNode == i)

/-! ## Cost-sensitive cutoff selection (spec 4.2; the classifier's
training code is backend ML code not present under src/). -/

/-- Modelled from the spec: a labelled validation sample during threshold
selection — the model's predicted fraud probability and the true fraud
label.  The backend training pipeline holding this logic is not under
src/. -/
structure LabeledSample where
  prob : ℚ
  fraudulent : Bool
deriving DecidableEq

/-- Modelled from the spec: false negatives at a cutoff — actually
fraudulent samples whose probability falls below the cutoff (predicted
legitimate). -/
def falseNegativeCount (data : List LabeledSample) (cutoff : ℚ) : ℕ :=
  data.countP (fun d => d.fraudulent && decide (d.prob < cutoff))

/-- Modelled from the spec: false positives at a cutoff — legitimate
samples whose probability reaches the cutoff (predicted fraudulent). -/
def falsePositiveCount (data : List LabeledSample) (cutoff : ℚ) : ℕ :=
  data.countP (fun d => !d.fraudulent && decide (cutoff ≤ d.prob))

/-- Modelled from the spec: the default false-negative cost weight. -/
def defaultFNCost : ℚ := 10

/-- Modelled from the spec: the default false-positive cost weight. -/
def defaultFPCost : ℚ := 1

/-- Modelled from the spec: expected business cost of a candidate cutoff,
`false_negative_count × FN_cost + false_positive_count × FP_cost`. -/
def expectedCost (fnCost fpCost : ℚ) (data : List LabeledSample)
    (cutoff : ℚ) : ℚ :=
  (falseNegativeCount data cutoff : ℚ) * fnCost +
    (falsePositiveCount data cutoff : ℚ) * fpCost

/-- Sweep a candidate list keeping an element of least objective value
(earlier candidates win ties). -/
def sweepMin {α : Type} (f : α → ℚ) : List α → Option α
  | [] => none
  | x :: xs =>
    match sweepMin f xs with
    | none => some x
    | some b => if f x ≤ f b then some x else some b

/-- Modelled from the spec: threshold selection after model choice —
sweep the candidate probability cutoffs and choose one minimizing the
expected business cost. -/
def selectCutoff (fnCost fpCost : ℚ) (data : List LabeledSample)
    (candidates : List ℚ) : Option ℚ :=
  sweepMin (expectedCost fnCost fpCost data) candidates

/-! ## Feature extraction (spec 4.1 and section 3 `FeatureVector`; the
Feature Extractor is backend code not present under src/). -/

/-- Insurance category of a claim. -/
inductive InsCategory
  | vehicle
  | health
  | property
deriving DecidableEq

/-- Modelled from the spec: the raw claim record the Feature Extractor
consumes.  Fields a submission may lack are `Option`; dates are day
numbers; the incident description is its word list (the spec's scan is a
lexicon keyword match). -/
structure RawClaim where
  claimant_id : ℕ
  category : InsCategory
  claim_amount : Option ℚ
  premium_amount : Option ℚ
  policy_start_date : Option ℤ
  incident_date : Option ℤ
  filed_date : Option ℤ
  incident_words : List String
  location : Option String
  repair_shop_name : Option String
deriving DecidableEq

/-- Modelled from the spec: the configurable thresholds the extractor
consults (epsilon guard, per-category amount caps, keyword weight table,
location-risk table with mid-value baseline, holiday table, late-reporting
window in days, default 30). -/
structure ExtractorConfig where
  epsilon : ℚ
  vehicleAmountCap : ℚ
  healthAmountCap : ℚ
  propertyAmountCap : ℚ
  keywordWeights : List (String × ℚ)
  locationRisk : List (String × ℚ)
  baselineLocationRisk : ℚ
  holidays : List ℤ
  lateReportingWindowDays : ℤ
deriving DecidableEq

/-- The configured suspicious-amount cap for a category. -/
def amountCap (cfg : ExtractorConfig) : InsCategory → ℚ
  | .vehicle => cfg.vehicleAmountCap
  | .health => cfg.healthAmountCap
  | .property => cfg.propertyAmountCap

/-- The larger of two rationals (computably, so concrete feature vectors
evaluate). -/
def qmax (a b : ℚ) : ℚ := if a ≤ b then b else a

/-- The smaller of two rationals. -/
def qmin (a b : ℚ) : ℚ := if a ≤ b then a else b

/-- Clamp a rational into `[0, 1]`. -/
def clamp01 (q : ℚ) : ℚ := qmax 0 (qmin 1 q)

/-- Modelled from the spec: keyword-weighted incident severity — the sum
of the weights of lexicon keywords occurring in the description, clamped
into `[0, 1]`. -/
def keywordSeverity (cfg : ExtractorConfig) (ws : List String) : ℚ :=
  clamp01 ((cfg.keywordWeights.filter (fun kw => ws.contains kw.1)).foldl
    (fun acc kw => acc + kw.2) 0)

/-- First value stored under a key in a rational table. -/
def lookupTable : List (String × ℚ) → String → Option ℚ
  | [], _ => none
  | (k', v) :: t, k => if k' = k then some v else lookupTable t k

/-- Modelled from the spec: location risk — the table value when the
location is known, the mid-value baseline otherwise. -/
def locationRiskScore (cfg : ExtractorConfig) (loc : Option String) : ℚ :=
  match loc with
  | none => cfg.baselineLocationRisk
  | some l => (lookupTable cfg.locationRisk l).getD cfg.baselineLocationRisk

/-- Day-number weekend test (days 5 and 6 of each 7-day week). -/
def isWeekendDay (d : ℤ) : Bool :=
  (d % 7 == 5) || (d % 7 == 6)

/-- The 14 feature names of the fixed `FeatureVector` schema (spec 4.1). -/
def featureNames : List String :=
  [ "claim_amount", "premium_amount", "claim_to_premium_ratio",
    "time_since_policy_start", "claim_frequency", "suspicious_amount_flag",
    "incident_severity", "location_risk", "weekend_holiday_flag",
    "late_reporting_flag", "repair_shop_repetition", "is_vehicle_claim",
    "is_health_claim", "is_property_claim" ]

/-- Modelled from the spec: the Feature Extractor (spec 4.1), absent from
src/.  Structurally malformed input — missing amounts or dates, negative
amounts — fails (`InvalidClaimDataError`, here `none`); every accepted
claim yields the 14 named rational features, with absent optional inputs
resolved to defined defaults.  `priorClaims` is the claimant's other
claims, `corpus` the other claims consulted for repair-shop repetition. -/
def extractFeatures (cfg : ExtractorConfig) (c : RawClaim)
    (priorClaims : List RawClaim) (corpus : List RawClaim) :
    Option (List (String × ℚ)) :=
  match c.claim_amount, c.premium_amount, c.policy_start_date,
      c.incident_date, c.filed_date with
  | some ca, some pa, some ps, some inc, some fd =>
    if ca < 0 ∨ pa < 0 then none
    else
      some
        [ ("claim_amount", ca),
          ("premium_amount", pa),
          ("claim_to_premium_ratio", ca / qmax pa cfg.epsilon),
          ("time_since_policy_start", qmax 0 (((inc - ps : ℤ) : ℚ))),
          ("claim_frequency",
            (priorClaims.countP (fun p =>
              match p.filed_date with
              | some d => decide (d < fd)
              | none => false) : ℚ)),
          ("suspicious_amount_flag",
            if ca > amountCap cfg c.category then 1 else 0),
          ("incident_severity", keywordSeverity cfg c.incident_words),
          ("location_risk", locationRiskScore cfg c.location),
          ("weekend_holiday_flag",
            if isWeekendDay inc || cfg.holidays.contains inc then 1 else 0),
          ("late_reporting_flag",
            if fd - inc > cfg.lateReportingWindowDays then 1 else 0),
          ("repair_shop_repetition",
            if c.category = .vehicle then
              (corpus.countP (fun o =>
                o.repair_shop_name.isSome &&
                  (o.repair_shop_name == c.repair_shop_name)) : ℚ)
            else 0),
          ("is_vehicle_claim", if c.category = .vehicle then 1 else 0),
          ("is_health_claim", if c.category = .health then 1 else 0),
          ("is_property_claim", if c.category = .property then 1 else 0) ]
  | _, _, _, _, _ => none

/-- A sample extractor configuration used by concrete witnesses. -/
def sampleConfig : ExtractorConfig :=
  { epsilon := 1/100,
    vehicleAmountCap := 500000,
    healthAmountCap := 300000,
    propertyAmountCap := 400000,
    keywordWeights := [("fire", 1/2)],
    locationRisk := [("mumbai", 7/10)],
    baselineLocationRisk := 1/2,
    holidays := [],
    lateReportingWindowDays := 30 }

/-- A sample well-formed vehicle claim used by concrete witnesses. -/
def sampleClaim : RawClaim :=
  { claimant_id := 1,
    category := .vehicle,
    claim_amount := some 1000,
    premium_amount := some 100,
    policy_start_date := some 0,
    incident_date := some 10,
    filed_date := some 20,
    incident_words := ["fire"],
    location := some "mumbai",
    repair_shop_name := some "Sharma Auto Works" }

/-- The feature vector the extractor produces for `sampleClaim` under
`sampleConfig` with no prior claims and an empty corpus. -/
def sampleFeatures : List (String × ℚ) :=
  [ ("claim_amount", 1000), ("premium_amount", 100),
    ("claim_to_premium_ratio", 10), ("time_since_policy_start", 10),
    ("claim_frequency", 0), ("suspicious_amount_flag", 0),
    ("incident_severity", 1/2), ("location_risk", 7/10),
    ("weekend_holiday_flag", 0), ("late_reporting_flag", 0),
    ("repair_shop_repetition", 0), ("is_vehicle_claim", 1),
    ("is_health_claim", 0), ("is_property_claim", 0) ]

end InsureGuard

namespace InsureGuard

/-! ## Theorems: C1, C2, C8, C10 -/

/-- Claim **C1.** In `renderRiskBar` the displayed risk category follows the
threshold rule with the pair fixed at 30 and 70 on the 0–100 scale:
`score < 30` yields `low`, `30 ≤ score < 70` yields `medium`, and
`score ≥ 70` yields `high`. -/
theorem riskBar_threshold_rule (score : ℚ) :
    (score < 30 → riskBarClass score = "low") ∧
    (30 ≤ score → score < 70 → riskBarClass score = "medium") ∧
    (70 ≤ score → riskBarClass score = "high") := by
  refine ⟨fun h => ?_, fun h1 h2 => ?_, fun h => ?_⟩ <;>
    simp only [riskBarClass] <;> split_ifs <;>
    first
      | rfl
      | (exfalso; linarith)

/-- Witness for C1 at scores 10, 30 and 70 (both boundaries land on the
claimed side). -/
theorem riskBar_threshold_rule_witness :
    riskBarClass 10 = "low" ∧ riskBarClass 30 = "medium" ∧
    riskBarClass 70 = "high" :=
  ⟨(riskBar_threshold_rule 10).1 (by norm_num),
   (riskBar_threshold_rule 30).2.1 (by norm_num) (by norm_num),
   (riskBar_threshold_rule 70).2.2 (by norm_num)⟩

/-- Claim **C2.** `Admin.saveThresholds` rejects every pair with
`low ≥ high` at configuration-update time: no update request is issued to
the backend and the stored thresholds remain exactly as they were (no
silent clamping). -/
theorem saveThresholds_rejects_inverted (store : ThresholdStore)
    (low high : ℚ) (h : low ≥ high) :
    (saveThresholds store low high).request = none ∧
    (saveThresholds store low high).store = store := by
  simp [saveThresholds, h]

/-- Witness for C2: the pair (0.7, 0.3) is rejected and a store holding
(0.3, 0.7) is left untouched. -/
theorem saveThresholds_rejects_inverted_witness :
    (saveThresholds ⟨3/10, 7/10⟩ (7/10) (3/10)).request = none ∧
    (saveThresholds ⟨3/10, 7/10⟩ (7/10) (3/10)).store = ⟨3/10, 7/10⟩ :=
  saveThresholds_rejects_inverted ⟨3/10, 7/10⟩ (7/10) (3/10) (by norm_num)

/-- Claim **C8.** A claim with `fraud_probability` exactly 0 renders the
placeholder `—` (not `0.0%`) in both the high-risk-claims table and the
staff dashboard's recent-claims table, because the cell tests JS
truthiness of the probability; every strictly positive probability `p`
renders `p × 100` to one decimal followed by `%`. -/
theorem fraudScoreCell_zero_placeholder :
    highRiskFraudScoreCell 0 = "—" ∧ staffFraudScoreCell 0 = "—" ∧
    highRiskFraudScoreCell 0 ≠ "0.0%" ∧
    (∀ p : ℚ, 0 < p →
      highRiskFraudScoreCell p = toFixed1 (p * 100) ++ "%" ∧
      staffFraudScoreCell p = toFixed1 (p * 100) ++ "%") := by
  refine ⟨by simp [highRiskFraudScoreCell], by simp [staffFraudScoreCell],
    by simp [highRiskFraudScoreCell], fun p hp => ?_⟩
  have hne : p ≠ 0 := ne_of_gt hp
  exact ⟨by simp [highRiskFraudScoreCell, hne],
         by simp [staffFraudScoreCell, hne]⟩

/-- Witness for C8 at p = 0.5: both cells show `50.0%`. -/
theorem fraudScoreCell_zero_placeholder_witness :
    highRiskFraudScoreCell (1/2) = toFixed1 ((1/2 : ℚ) * 100) ++ "%" ∧
    staffFraudScoreCell (1/2) = toFixed1 ((1/2 : ℚ) * 100) ++ "%" :=
  fraudScoreCell_zero_placeholder.2.2.2 (1/2) (by norm_num)

/-- Claim **C10.** `formatCurrency` treats 0 as a real value: the guard
`!amount && amount !== 0` never fires on a number (for 0 the second
conjunct fails, for nonzero the first), so `formatCurrency(0)` is the
locale formatter's zero-rupee output, while only `null`/`undefined`
(and other falsy non-number inputs) take the literal `₹0` branch. -/
theorem formatCurrency_zero_real_value :
    formatCurrency (some 0) = intlFormatINR 0 ∧
    (∀ a : ℚ, formatCurrencyPlaceholderBranch (some a) = false) ∧
    formatCurrencyPlaceholderBranch none = true := by
  refine ⟨?_, fun a => ?_, rfl⟩
  · simp [formatCurrency, formatCurrencyPlaceholderBranch]
  · by_cases h : a = 0 <;> simp [formatCurrencyPlaceholderBranch, h]

/-- Claim **C6.** The sidebar is role-gated and depends only on the role: users
with the same role get identical item lists; the Fraud Network, Fraud
Intelligence, ML Insights, High Risk Claims, Audit Logs and Settings
entries appear for role `manager` and only for it; role `agent` gets
Alerts and Analytics; any other or missing role gets exactly the
policyholder menu (Dashboard, File New Claim, My Claims). -/
theorem sidebar_role_gating :
    (∀ u v : SiteUser, u.role = v.role →
      sidebarItems (some u) = sidebarItems (some v)) ∧
    (∀ role : String,
      ("fraud-network" ∈ navIds (navItemsFor role) ↔ role = "manager") ∧
      ("fraud-intel" ∈ navIds (navItemsFor role) ↔ role = "manager") ∧
      ("ml-insights" ∈ navIds (navItemsFor role) ↔ role = "manager") ∧
      ("high-risk" ∈ navIds (navItemsFor role) ↔ role = "manager") ∧
      ("audit-logs" ∈ navIds (navItemsFor role) ↔ role = "manager") ∧
      ("settings" ∈ navIds (navItemsFor role) ↔ role = "manager")) ∧
    ("alerts" ∈ navIds agentNavItems ∧ "analytics" ∈ navIds agentNavItems) ∧
    (∀ role : String, role ≠ "agent" → role ≠ "manager" →
      navItemsFor role = userNavItems) ∧
    sidebarItems none = userNavItems ∧
    userNavItems.map NavItem.label = ["Dashboard", "File New Claim", "My Claims"] := by
  refine ⟨fun u v h => ?_, fun role => ?_, by decide, fun role h2 h3 => ?_,
    by decide, by decide⟩
  · simp [sidebarItems, effectiveRole, h]
  · by_cases h1 : role = "user"
    · subst h1; decide
    · by_cases h2 : role = "agent"
      · subst h2; decide
      · by_cases h3 : role = "manager"
        · subst h3; decide
        · have hfall : navItemsFor role = userNavItems := by
            simp [navItemsFor, h1, h2, h3]
          refine ⟨?_, ?_, ?_, ?_, ?_, ?_⟩ <;> rw [hfall] <;>
            exact iff_of_false (by decide) h3
  · by_cases h1 : role = "user"
    · subst h1; decide
    · simp [navItemsFor, h1, h2, h3]

/-- Witness for C6: two agents with different names get the same sidebar,
and an unrecognized role falls back to the policyholder menu. -/
theorem sidebar_role_gating_witness :
    sidebarItems (some ⟨some "agent", "Asha Rao"⟩) =
      sidebarItems (some ⟨some "agent", "Vikram Shah"⟩) ∧
    navItemsFor "auditor" = userNavItems :=
  ⟨sidebar_role_gating.1 ⟨some "agent", "Asha Rao"⟩ ⟨some "agent", "Vikram Shah"⟩ rfl,
   sidebar_role_gating.2.2.2.1 "auditor" (by decide) (by decide)⟩

/-- Claim **C7.** Fraud clusters are identified purely by position: the entry the
fraud-intelligence view renders at position `i` is a function of `i` and
the cluster's displayed fields, its title is
`Network Cluster #(i+1) — size connected entities`, and the rendering never
reads a persisted `cluster_id` (changing that field changes nothing). -/
theorem clusterLabel_positional :
    (∀ (cs : List FraudCluster) (i : ℕ) (h : i < cs.length)
        (h2 : i < (renderFraudClusters cs).length),
      (renderFraudClusters cs).get ⟨i, h2⟩ = clusterItemHtml i (cs.get ⟨i, h⟩)) ∧
    (∀ (i : ℕ) (c : FraudCluster) (newId : ℕ),
      clusterItemHtml i { c with cluster_id := newId } = clusterItemHtml i c) ∧
    (∀ (i : ℕ) (c : FraudCluster),
      clusterTitle i c = "Network Cluster #" ++ toString (i + 1) ++ " — " ++
        toString c.size ++ " connected entities") := by
  refine ⟨fun cs i h h2 => ?_, fun i c newId => rfl, fun i c => rfl⟩
  exact List.get_mapIdx cs clusterItemHtml i h

/-- Witness for C7: a two-cluster payload renders its second cluster under
the positional label, independently of its `cluster_id`. -/
theorem clusterLabel_positional_witness :
    (renderFraudClusters
        [⟨99, 3, "critical", ["c-1", "c-2", "c-3"]⟩,
         ⟨7, 2, "high", ["c-8", "c-9"]⟩]).get ⟨1, by decide⟩ =
      clusterItemHtml 1
        (([⟨99, 3, "critical", ["c-1", "c-2", "c-3"]⟩,
           ⟨7, 2, "high", ["c-8", "c-9"]⟩] : List FraudCluster).get ⟨1, by decide⟩) :=
  clusterLabel_positional.1 _ 1 (by decide) (by decide)

/-- Claim **C3 counterexample.** The alerts page does not aggregate the listed
alerts: a payload carrying `critical_alerts = 5` beside an empty alert
list shows 5 in the Critical card while the list contains no critical
alert, so the shown summary count differs from the aggregation. -/
theorem alertsSummary_not_aggregated_cex :
    shownCriticalCount ⟨5, 0, 0, 0, []⟩ ≠
      severityCount (AlertsPayload.alerts ⟨5, 0, 0, 0, []⟩) "critical" := by
  decide

/-- Claim **C3 amended.** `Admin.renderAlerts` displays the payload's
precomputed `critical_alerts`/`high_alerts`/`medium_alerts`/`total_alerts`
fields verbatim — the summary block never reads the alert list — so the
shown counts equal the per-severity aggregation of the listed alerts
exactly for payloads whose count fields are consistent with the list. -/
theorem alertsSummary_payload_fields :
    (∀ (d : AlertsPayload) (l : List AlertItem),
      alertsSummaryHtml { d with alerts := l } = alertsSummaryHtml d) ∧
    (∀ d : AlertsPayload,
      shownCriticalCount d = d.critical_alerts ∧
      shownHighCount d = d.high_alerts ∧
      shownMediumCount d = d.medium_alerts ∧
      shownTotalCount d = d.total_alerts) ∧
    (∀ d : AlertsPayload,
      d.critical_alerts = severityCount d.alerts "critical" →
      d.high_alerts = severityCount d.alerts "high" →
      d.medium_alerts = severityCount d.alerts "medium" →
      d.total_alerts = d.alerts.length →
      shownCriticalCount d = severityCount d.alerts "critical" ∧
      shownHighCount d = severityCount d.alerts "high" ∧
      shownMediumCount d = severityCount d.alerts "medium" ∧
      shownTotalCount d = d.alerts.length) :=
  ⟨fun _ _ => rfl, fun _ => ⟨rfl, rfl, rfl, rfl⟩,
   fun _ h1 h2 h3 h4 => ⟨h1, h2, h3, h4⟩⟩

/-- Witness for the amended C3 at a consistent payload: one high and one
critical alert with matching count fields. -/
theorem alertsSummary_payload_fields_witness :
    shownCriticalCount
        ⟨1, 1, 0, 2, [⟨"rapid_repeat", "high", "m1"⟩, ⟨"high_value_anomaly", "critical", "m2"⟩]⟩ =
      severityCount
        [⟨"rapid_repeat", "high", "m1"⟩, ⟨"high_value_anomaly", "critical", "m2"⟩] "critical" ∧
    shownHighCount
        ⟨1, 1, 0, 2, [⟨"rapid_repeat", "high", "m1"⟩, ⟨"high_value_anomaly", "critical", "m2"⟩]⟩ =
      severityCount
        [⟨"rapid_repeat", "high", "m1"⟩, ⟨"high_value_anomaly", "critical", "m2"⟩] "high" ∧
    shownMediumCount
        ⟨1, 1, 0, 2, [⟨"rapid_repeat", "high", "m1"⟩, ⟨"high_value_anomaly", "critical", "m2"⟩]⟩ =
      severityCount
        [⟨"rapid_repeat", "high", "m1"⟩, ⟨"high_value_anomaly", "critical", "m2"⟩] "medium" ∧
    shownTotalCount
        ⟨1, 1, 0, 2, [⟨"rapid_repeat", "high", "m1"⟩, ⟨"high_value_anomaly", "critical", "m2"⟩]⟩ =
      ([⟨"rapid_repeat", "high", "m1"⟩, ⟨"high_value_anomaly", "critical", "m2"⟩] : List AlertItem).length :=
  alertsSummary_payload_fields.2.2
    ⟨1, 1, 0, 2, [⟨"rapid_repeat", "high", "m1"⟩, ⟨"high_value_anomaly", "critical", "m2"⟩]⟩
    (by decide) (by decide) (by decide) (by decide)

/-! Helper lemmas for the degree map of `Admin.drawNetwork`. -/

/-- Looking a key up after a bump: the bumped key gains one over its
previous value (0 when absent); other keys are untouched. -/
theorem lookup_bumpCount (m : List (String × ℕ)) (k q : String) :
    lookupCount (bumpCount m k) q =
      if q = k then some ((lookupCount m q).getD 0 + 1)
      else lookupCount m q := by
  induction m with
  | nil =>
    by_cases h : q = k
    · subst h; simp [bumpCount, lookupCount]
    · have h' : ¬k = q := fun hh => h hh.symm
      simp [bumpCount, lookupCount, h, h']
  | cons p t ih =>
    obtain ⟨k₁, v⟩ := p
    by_cases hk : k₁ = k
    · subst hk
      by_cases hq : q = k₁
      · subst hq; simp [bumpCount, lookupCount]
      · have hq' : ¬k₁ = q := fun hh => hq hh.symm
        simp [bumpCount, lookupCount, hq, hq']
    · by_cases hq : k₁ = q
      · have hqk : ¬q = k := fun hh => hk (hq.trans hh)
        simp [bumpCount, lookupCount, hk, hq, hqk]
      · simp [bumpCount, lookupCount, hk, hq, ih]

/-- Folding the per-edge double bump over an accumulator map: the final
lookup of `i` adds the endpoint occurrences of `i` to whatever the
accumulator held, and an entry exists exactly when one existed before or
some processed edge touched `i`. -/
theorem degree_foldl (l : List NetEdge) :
    ∀ (m : List (String × ℕ)) (i : String),
      lookupCount
          (l.foldl (fun m e => bumpCount (bumpCount m e.toNode) e.fromNode) m) i =
        if (lookupCount m i).isSome ∨ endpointCount l i ≠ 0
        then some ((lookupCount m i).getD 0 + endpointCount l i) else none := by
  induction l with
  | nil =>
    intro m i
    cases h : lookupCount m i <;> simp [endpointCount, h]
  | cons e t ih =>
    intro m i
    rw [List.foldl_cons, ih, lookup_bumpCount, lookup_bumpCount]
    by_cases h1 : i = e.fromNode <;> by_cases h2 : i = e.toNode
    · subst h1
      rw [h2]
      cases h : lookupCount m e.toNode <;>
        simp [endpointCount, h2, h] <;> omega
    · subst h1
      have h2' : ¬e.toNode = e.fromNode := fun hh => h2 hh.symm
      cases h : lookupCount m e.fromNode <;>
        simp [endpointCount, h2, h2', h] <;> omega
    · subst h2
      have h1' : ¬e.fromNode = e.toNode := fun hh => h1 hh.symm
      cases h : lookupCount m e.toNode <;>
        simp [endpointCount, h1, h1', h] <;> omega
    · have h1' : ¬e.fromNode = i := fun hh => h1 hh.symm
      have h2' : ¬e.toNode = i := fun hh => h2 hh.symm
      cases h : lookupCount m i <;>
        simp [endpointCount, h1, h2, h1', h2', h] <;> omega

/-- The degree map's entry for `i` is absent exactly when no edge endpoint
names `i`, and otherwise holds the endpoint count. -/
theorem degreeMap_lookup (edges : List NetEdge) (i : String) :
    lookupCount (degreeMap edges) i =
      if endpointCount edges i = 0 then none
      else some (endpointCount edges i) := by
  have h := degree_foldl edges [] i
  simp only [degreeMap]
  rw [h]
  by_cases hc : endpointCount edges i = 0 <;> simp [lookupCount, hc]

/-- On payloads without self-loops, endpoint occurrences and incident
edges agree. -/
theorem endpointCount_eq_incident (edges : List NetEdge) (i : String)
    (h : ∀ e ∈ edges, e.fromNode ≠ e.toNode) :
    endpointCount edges i = incidentEdgeCount edges i := by
  induction edges with
  | nil => simp [endpointCount, incidentEdgeCount]
  | cons e t ih =>
    have he : e.fromNode ≠ e.toNode := h e (List.mem_cons_self e t)
    have ht : ∀ e' ∈ t, e'.fromNode ≠ e'.toNode :=
      fun e' h' => h e' (List.mem_cons_of_mem e h')
    simp only [endpointCount, incidentEdgeCount, List.countP_cons] at *
    rw [ih ht]
    by_cases h1 : e.toNode = i <;> by_cases h2 : e.fromNode = i
    · exact absurd (h2.trans h1.symm) he
    · simp [h1, h2] <;> omega
    · simp [h1, h2] <;> omega
    · simp [h1, h2]

/-- Claim **C9 counterexample.** On a payload containing the self-loop
`a — a` plus the edge `a — b`, node `a` has two incident edges (not more
than 2), yet the degree map counts the self-loop twice, reaches 3, and the
node is colored red — so "red exactly when incident edges > 2" fails. -/
theorem nodeColor_incident_cex :
    nodeColor [⟨"a", "a"⟩, ⟨"a", "b"⟩] ⟨"a", "policyholder"⟩ = "#f43f5e" ∧
    ¬ 2 < incidentEdgeCount [⟨"a", "a"⟩, ⟨"a", "b"⟩] "a" := by
  constructor
  · rfl
  · decide

/-- Claim **C9 amended.** For every nodes/edges payload the coloring is total:
a node is red exactly when its total endpoint occurrences in the edge
list (a self-loop counting twice) exceed 2; a node no edge touches has no
entry in the degree map, the undefined comparison fails, and it is colored
by group (`policyholder` blue, anything else green); and on payloads
without self-loops the red condition coincides with "strictly more than 2
incident edges". -/
theorem nodeColor_endpoint_rule (edges : List NetEdge) (n : NetNode) :
    (nodeColor edges n = "#f43f5e" ↔ 2 < endpointCount edges n.id) ∧
    (endpointCount edges n.id = 0 →
      lookupCount (degreeMap edges) n.id = none ∧
      nodeColor edges n =
        (if n.group = "policyholder" then "#3b82f6" else "#10b981")) ∧
    ((∀ e ∈ edges, e.fromNode ≠ e.toNode) →
      (nodeColor edges n = "#f43f5e" ↔ 2 < incidentEdgeCount edges n.id)) := by
  have hgt : countGtTwo (lookupCount (degreeMap edges) n.id) =
      decide (2 < endpointCount edges n.id) := by
    rw [degreeMap_lookup]
    by_cases hc : endpointCount edges n.id = 0 <;> simp [countGtTwo, hc]
  have hred : nodeColor edges n = "#f43f5e" ↔ 2 < endpointCount edges n.id := by
    simp only [nodeColor, hgt]
    by_cases hlt : 2 < endpointCount edges n.id <;>
      simp [hlt] <;> split_ifs <;> simp
  refine ⟨hred, fun h0 => ?_, fun hns => ?_⟩
  · refine ⟨by rw [degreeMap_lookup]; simp [h0], ?_⟩
    simp only [nodeColor, hgt, h0]
    norm_num
  · rw [hred, endpointCount_eq_incident edges n.id hns]

/-- Witness for the amended C9: a star of three distinct edges around `a`
(no self-loops) makes `a` red by the incident-edge rule, and an isolated
node is colored by its group. -/
theorem nodeColor_endpoint_rule_witness :
    (nodeColor [⟨"a", "b"⟩, ⟨"a", "c"⟩, ⟨"a", "d"⟩] ⟨"a", "shop"⟩ = "#f43f5e" ↔
      2 < incidentEdgeCount [⟨"a", "b"⟩, ⟨"a", "c"⟩, ⟨"a", "d"⟩] "a") ∧
    (lookupCount (degreeMap [⟨"a", "b"⟩, ⟨"a", "c"⟩, ⟨"a", "d"⟩]) "z" = none ∧
      nodeColor [⟨"a", "b"⟩, ⟨"a", "c"⟩, ⟨"a", "d"⟩] ⟨"z", "policyholder"⟩ =
        (if ("policyholder" : String) = "policyholder" then "#3b82f6" else "#10b981")) :=
  ⟨(nodeColor_endpoint_rule [⟨"a", "b"⟩, ⟨"a", "c"⟩, ⟨"a", "d"⟩] ⟨"a", "shop"⟩).2.2
     (by decide),
   (nodeColor_endpoint_rule [⟨"a", "b"⟩, ⟨"a", "c"⟩, ⟨"a", "d"⟩] ⟨"z", "policyholder"⟩).2.1
     (by decide)⟩

/-- Lemma: `sweepMin` returns a member of any nonempty list whose objective value
is least among all members. -/
theorem sweepMin_spec {α : Type} (f : α → ℚ) :
    ∀ l : List α, l ≠ [] →
      ∃ b, sweepMin f l = some b ∧ b ∈ l ∧ ∀ x ∈ l, f b ≤ f x := by
  intro l
  induction l with
  | nil => intro h; exact absurd rfl h
  | cons x xs ih =>
    intro _
    by_cases hxs : xs = []
    · subst hxs
      refine ⟨x, by simp [sweepMin], by simp, ?_⟩
      intro y hy
      rw [List.mem_singleton.mp hy]
    · obtain ⟨b, hb, hmem, hle⟩ := ih hxs
      by_cases hfx : f x ≤ f b
      · refine ⟨x, by simp [sweepMin, hb, hfx], List.mem_cons_self x xs, ?_⟩
        intro y hy
        rcases List.mem_cons.mp hy with h | h
        · rw [h]
        · exact le_trans hfx (hle y h)
      · refine ⟨b, by simp [sweepMin, hb, hfx], List.mem_cons_of_mem x hmem, ?_⟩
        intro y hy
        rcases List.mem_cons.mp hy with h | h
        · rw [h]; exact le_of_lt (lt_of_not_le hfx)
        · exact hle y h

/-- Claim **C4.** Cutoff selection is cost-minimizing: the expected business
cost of a candidate cutoff is `FN × FN_cost + FP × FP_cost` (defaults 10
and 1), and the selected cutoff is a swept candidate whose cost is least
over all swept candidates. -/
theorem selectCutoff_minimizes_cost :
    (∀ (fnCost fpCost : ℚ) (data : List LabeledSample) (cutoff : ℚ),
      expectedCost fnCost fpCost data cutoff =
        (falseNegativeCount data cutoff : ℚ) * fnCost +
          (falsePositiveCount data cutoff : ℚ) * fpCost) ∧
    defaultFNCost = 10 ∧ defaultFPCost = 1 ∧
    (∀ (fnCost fpCost : ℚ) (data : List LabeledSample) (candidates : List ℚ),
      candidates ≠ [] →
      ∃ sel, selectCutoff fnCost fpCost data candidates = some sel ∧
        sel ∈ candidates ∧
        ∀ c ∈ candidates,
          expectedCost fnCost fpCost data sel ≤
            expectedCost fnCost fpCost data c) :=
  ⟨fun _ _ _ _ => rfl, rfl, rfl,
   fun fnC fpC data cands h => sweepMin_spec (expectedCost fnC fpC data) cands h⟩

/-- Witness for C4: on two samples (a fraud at probability 0.4, a
legitimate claim at 0.6) sweeping cutoffs 0.5 and 0.3 with the default
costs, a cost-minimizing swept cutoff is selected. -/
theorem selectCutoff_minimizes_cost_witness :
    ∃ sel,
      selectCutoff 10 1 [⟨2/5, true⟩, ⟨3/5, false⟩] [1/2, 3/10] = some sel ∧
      sel ∈ [(1/2 : ℚ), 3/10] ∧
      ∀ c ∈ [(1/2 : ℚ), 3/10],
        expectedCost 10 1 [⟨2/5, true⟩, ⟨3/5, false⟩] sel ≤
          expectedCost 10 1 [⟨2/5, true⟩, ⟨3/5, false⟩] c :=
  selectCutoff_minimizes_cost.2.2.2 10 1 [⟨2/5, true⟩, ⟨3/5, false⟩]
    [1/2, 3/10] (by decide)

/-- Claim **C5.** Every claim the feature extractor accepts yields a
`FeatureVector` with exactly the 14 named entries in the fixed schema
order — no missing key, no duplicate, every value a (finite) rational,
with absent optional inputs resolved to defined defaults inside the
extractor — so the classifier input shape is invariant. -/
theorem extractFeatures_shape_invariant (cfg : ExtractorConfig)
    (c : RawClaim) (priorClaims corpus : List RawClaim)
    (fv : List (String × ℚ))
    (h : extractFeatures cfg c priorClaims corpus = some fv) :
    fv.map Prod.fst = featureNames ∧ fv.length = 14 ∧
    featureNames.Nodup := by
  unfold extractFeatures at h
  split at h
  · split at h
    · simp at h
    · injection h with h2
      subst h2
      exact ⟨rfl, rfl, by decide⟩
  · simp at h

/-- The sample claim is accepted and extracts to `sampleFeatures`. -/
theorem sampleClaim_extract :
    extractFeatures sampleConfig sampleClaim [] [] = some sampleFeatures := by
  simp only [extractFeatures, sampleConfig, sampleClaim, sampleFeatures,
    qmax, qmin, clamp01, keywordSeverity, locationRiskScore, lookupTable,
    isWeekendDay, amountCap]
  norm_num
  exact ⟨by decide, by decide⟩

/-- Witness for C5: the sample vehicle claim is accepted and its feature
vector carries exactly the 14 schema names. -/
theorem extractFeatures_shape_invariant_witness :
    extractFeatures sampleConfig sampleClaim [] [] = some sampleFeatures ∧
    sampleFeatures.map Prod.fst = featureNames :=
  ⟨sampleClaim_extract,
   (extractFeatures_shape_invariant sampleConfig sampleClaim [] []
     sampleFeatures sampleClaim_extract).1⟩

end InsureGuard
